import Mathlib

/-!
Shallow embedding of the browser chat client in static/script.js
(Sethry AI Business Consultant repository).

The client is a single-threaded, event-driven controller.  We model its
observable state explicitly:

  * the text input field value,
  * the chat container, an ordered list of child nodes (rendered messages
    and typing-indicator placeholder elements),
  * the ordered log of issued fetch request URLs,
  * a counter supplying fresh identities for placeholder elements
    (the DOM gives each created element its own identity).

Each DOM event handler from the source becomes a state transformer:

  * sendMessage     — the send-button / Enter-key handler (script.js:42-48),
  * sendQuestion    — the request cycle (script.js:51-86), split into an
                      explicit effect trace so that the order of its side
                      effects (clear input, append user message, append
                      placeholder, issue fetch) is visible to theorems,
  * clickTool       — the shortcut (tool button) click handler (script.js:17-24),
  * onSettled       — the fetch continuation (the .then / .catch bodies,
                      script.js:63-86); a transport failure or JSON parse
                      failure is a rejected promise, modelled as Except.error.

JavaScript-specific semantics are embedded faithfully:

  * the truthiness test `if (data.error)` is jsTruthy: an absent field and
    the empty string are falsy, every other string is truthy;
  * template-literal interpolation of an absent field prints "undefined"
    (jsString);
  * `userInput.value.trim()` is jsTrim, trimming whitespace at both ends;
  * `encodeURIComponent` percent-encodes the UTF-8 bytes of every character
    outside the unreserved set A-Z a-z 0-9 - _ . ! ~ * apostrophe ( );
  * the fetch URL template encodes the question but interpolates the
    category verbatim (script.js:62);
  * `formatMessage` replaces every newline character by "<br>" and performs
    no other transformation (script.js:131-134);
  * placeholder removal is guarded by a parentNode check (script.js:66-68 and
    79-81); the unguarded DOM removeChild, which throws NotFoundError on a
    detached node, is modelled as removeChildOrThrow for comparison.
-/

namespace SethryClient

/-- Message sender: a user-authored message or an assistant (AI) message. -/
inductive Sender where
  | user
  | ai
  deriving DecidableEq

/-- A child node of the chat container: either a rendered message element
or a typing-indicator placeholder element with its own identity. -/
inductive Node where
  | message (sender : Sender) (text : String)
  | typing (id : Nat)
  deriving DecidableEq

/-- Observable client state: input field value, chat container children,
ordered log of issued fetch URLs, and a fresh-identity counter for
placeholder elements. -/
structure ClientState where
  inputValue : String
  chat : List Node
  fetches : List String
  nextId : Nat
  deriving DecidableEq

/-- Parsed JSON response body: the success shape carries an answer field,
the error shape an error field; either may be absent. -/
structure ResponseBody where
  answer : Option String
  error : Option String
  deriving DecidableEq

/-- JavaScript truthiness of a possibly-absent string field:
absent (undefined) and the empty string are falsy. -/
def jsTruthy : Option String → Bool
  | none => false
  | some s => s != ""

/-- JavaScript template-literal interpolation of a possibly-absent string
field: an absent field prints "undefined". -/
def jsString : Option String → String
  | none => "undefined"
  | some s => s

/-- Drop leading whitespace characters from a character list. -/
def dropWhitespace : List Char → List Char
  | [] => []
  | c :: cs => if c.isWhitespace then dropWhitespace cs else c :: cs

/-- JavaScript String.prototype.trim: remove whitespace from both ends. -/
def jsTrim (s : String) : String :=
  String.mk ((dropWhitespace ((dropWhitespace s.toList).reverse)).reverse)

/-- Characters left unencoded by encodeURIComponent:
A-Z, a-z, 0-9, and - _ . ! ~ * apostrophe ( ). -/
def isUnreservedChar (c : Char) : Bool :=
  let n := c.toNat
  (65 ≤ n && n ≤ 90) || (97 ≤ n && n ≤ 122) || (48 ≤ n && n ≤ 57) ||
    n == 45 || n == 95 || n == 46 || n == 33 || n == 126 || n == 42 ||
    n == 39 || n == 40 || n == 41

/-- UTF-8 byte sequence of a Unicode code point. -/
def utf8BytesOfCode (n : Nat) : List Nat :=
  if n < 128 then [n]
  else if n < 2048 then [192 + n / 64, 128 + n % 64]
  else if n < 65536 then [224 + n / 4096, 128 + (n / 64) % 64, 128 + n % 64]
  else [240 + n / 262144, 128 + (n / 4096) % 64, 128 + (n / 64) % 64, 128 + n % 64]

/-- Uppercase hexadecimal digit character for a value below 16. -/
def hexDigit (n : Nat) : Char :=
  if n < 10 then Char.ofNat (48 + n) else Char.ofNat (55 + n)

/-- Percent-encoding of one byte, e.g. 32 becomes "%20". -/
def percentByte (b : Nat) : String :=
  String.mk [Char.ofNat 37, hexDigit (b / 16), hexDigit (b % 16)]

/-- ECMAScript encodeURIComponent: unreserved characters pass through,
every other character is replaced by the percent-encoding of its UTF-8
bytes. -/
def encodeURIComponent (s : String) : String :=
  String.join (s.toList.map (fun c =>
    if isUnreservedChar c then String.singleton c
    else String.join ((utf8BytesOfCode c.toNat).map percentByte)))

/-- The fetch URL built at script.js:62: the question is passed through
encodeURIComponent, the category is interpolated verbatim. -/
def consultUrl (question category : String) : String :=
  "/api/consult?question=" ++ encodeURIComponent question ++
    "&category=" ++ category

/-- Modelled from the spec: the request URL with the question AND the
category both URL-encoded, as section 4.1 of the specification describes
(the source file is the authority; this definition exists only to compare
the specified URL shape with consultUrl). -/
def consultUrlClaimed (question category : String) : String :=
  "/api/consult?question=" ++ encodeURIComponent question ++
    "&category=" ++ encodeURIComponent category

/-- Body of formatMessage (script.js:133): replace every newline character
(the global single-character regex) by "<br>", leaving every other
character unchanged. -/
def replaceNewlines : List Char → List Char
  | [] => []
  | c :: cs =>
    (if c = Char.ofNat 10 then String.toList "<br>" else [c]) ++ replaceNewlines cs

/-- formatMessage (script.js:131-134). -/
def formatMessage (message : String) : String :=
  String.mk (replaceNewlines message.toList)

/-- addMessageToChat (script.js:89-107): appends one rendered message
element to the end of the chat container (then scrolls, which has no
observable effect on the modelled state). -/
def addMessageToChat (message : String) (sender : Sender) (st : ClientState) :
    ClientState :=
  { st with chat := st.chat ++ [Node.message sender message] }

/-- DOM child removal: removes the first occurrence of the given node. -/
def removeFirst (n : Node) : List Node → List Node
  | [] => []
  | c :: cs => if c = n then cs else c :: removeFirst n cs

/-- The guarded placeholder removal used in both fetch continuations
(script.js:66-68 and 79-81): remove the typing element only if it still
has a parent, i.e. is still a child of the chat container. -/
def removeTypingIfAttached (id : Nat) (chat : List Node) : List Node :=
  if Node.typing id ∈ chat then removeFirst (Node.typing id) chat else chat

/-- Unguarded DOM removeChild for comparison: removing a node that is not
a child throws a NotFoundError. -/
def removeChildOrThrow (n : Node) (chat : List Node) :
    Except String (List Node) :=
  if n ∈ chat then Except.ok (removeFirst n chat) else Except.error "NotFoundError"

/-- One primitive side effect performed by the statements of sendQuestion,
in source order. -/
inductive Effect where
  | clearInput
  | appendMessage (sender : Sender) (text : String)
  | appendTyping (id : Nat)
  | fetchIssue (url : String)
  deriving DecidableEq

/-- Interpretation of one effect on the client state. -/
def applyEffect (st : ClientState) : Effect → ClientState
  | Effect.clearInput => { st with inputValue := "" }
  | Effect.appendMessage sender text => addMessageToChat text sender st
  | Effect.appendTyping id =>
      { st with chat := st.chat ++ [Node.typing id], nextId := st.nextId + 1 }
  | Effect.fetchIssue url => { st with fetches := st.fetches ++ [url] }

/-- Run a list of effects in order. -/
def runEffects (st : ClientState) (es : List Effect) : ClientState :=
  es.foldl applyEffect st

/-- The statements of sendQuestion (script.js:51-62) in source order:
clear the input, append the user message, append the typing-indicator
placeholder (with a fresh identity), then issue the fetch. -/
def sendQuestionEffects (question category : String) (st : ClientState) :
    List Effect :=
  [Effect.clearInput,
   Effect.appendMessage Sender.user question,
   Effect.appendTyping st.nextId,
   Effect.fetchIssue (consultUrl question category)]

/-- sendQuestion (script.js:51-62): the synchronous part of the request
cycle, up to and including issuing the fetch. -/
def sendQuestion (question category : String) (st : ClientState) : ClientState :=
  runEffects st (sendQuestionEffects question category st)

/-- sendMessage (script.js:42-48): trim the input value; if the result is
non-empty (truthy), run the request cycle with the default category
"general", otherwise do nothing. -/
def sendMessage (st : ClientState) : ClientState :=
  if jsTrim st.inputValue ≠ "" then
    sendQuestion (jsTrim st.inputValue) "general" st
  else st

/-- The tool-button click handler (script.js:17-24): copy the button label
into the input field, then invoke sendQuestion unconditionally with the
label text verbatim and the button category. -/
def clickTool (label category : String) (st : ClientState) : ClientState :=
  sendQuestion label category { st with inputValue := label }

/-- The fetch continuation (script.js:63-86).  A fulfilled fetch whose body
parsed is Except.ok; a rejected fetch or a body that fails to parse as JSON
is Except.error carrying the failure description (error.message).  Both
continuations first remove the placeholder if still attached, then append
exactly one assistant message. -/
def onSettled (id : Nat) (result : Except String ResponseBody)
    (st : ClientState) : ClientState :=
  match result with
  | Except.ok data =>
      let st1 := { st with chat := removeTypingIfAttached id st.chat }
      if jsTruthy data.error then
        addMessageToChat ("Error: " ++ jsString data.error) Sender.ai st1
      else
        addMessageToChat (jsString data.answer) Sender.ai st1
  | Except.error e =>
      let st1 := { st with chat := removeTypingIfAttached id st.chat }
      addMessageToChat ("Network error: " ++ e) Sender.ai st1

/-- Projection of a chat node to its message content, if it is a message. -/
def messageData : Node → Option (Sender × String)
  | Node.message sender text => some (sender, text)
  | Node.typing _ => none

/-- The transcript: the ordered list of rendered messages in the chat
container (placeholders excluded). -/
def messagesOf (chat : List Node) : List (Sender × String) :=
  chat.filterMap messageData

/-- One observable transition of the client: a send-button / Enter-key
submission, a tool-button click, or the settlement of an issued fetch. -/
inductive Step : ClientState → ClientState → Prop where
  | submit (st : ClientState) : Step st (sendMessage st)
  | shortcut (label category : String) (st : ClientState) :
      Step st (clickTool label category st)
  | settle (id : Nat) (result : Except String ResponseBody) (st : ClientState) :
      Step st (onSettled id result st)

/-- The text of the single assistant message appended by the settlement
continuation, as a function of the settlement result. -/
def settleText : Except String ResponseBody → String
  | Except.ok data =>
      if jsTruthy data.error then "Error: " ++ jsString data.error
      else jsString data.answer
  | Except.error e => "Network error: " ++ e

theorem stringToListAppend (s t : String) :
    (s ++ t).toList = s.toList ++ t.toList := by
  cases s; cases t; rfl

theorem stringMkAppend (l1 l2 : List Char) :
    String.mk l1 ++ String.mk l2 = String.mk (l1 ++ l2) := rfl

theorem stringSingletonEq (c : Char) : String.singleton c = String.mk [c] := rfl

theorem replaceNewlinesAppend (l1 l2 : List Char) :
    replaceNewlines (l1 ++ l2) = replaceNewlines l1 ++ replaceNewlines l2 := by
  induction l1 with
  | nil => rfl
  | cons c cs ih => simp [replaceNewlines, ih]

theorem messagesOfAppend (l1 l2 : List Node) :
    messagesOf (l1 ++ l2) = messagesOf l1 ++ messagesOf l2 := by
  simp [messagesOf]

theorem messagesOfRemoveFirstTyping (id : Nat) (l : List Node) :
    messagesOf (removeFirst (Node.typing id) l) = messagesOf l := by
  induction l with
  | nil => rfl
  | cons c cs ih =>
    by_cases h : c = Node.typing id
    · subst h
      simp [removeFirst, messagesOf, messageData]
    · simp only [removeFirst, if_neg h]
      simp only [messagesOf, List.filterMap_cons] at ih ⊢
      rw [ih]

theorem messagesOfRemoveTyping (id : Nat) (l : List Node) :
    messagesOf (removeTypingIfAttached id l) = messagesOf l := by
  unfold removeTypingIfAttached
  split
  · exact messagesOfRemoveFirstTyping id l
  · rfl

theorem sendQuestionEq (question category : String) (st : ClientState) :
    sendQuestion question category st =
      { inputValue := "",
        chat := st.chat ++ [Node.message Sender.user question, Node.typing st.nextId],
        fetches := st.fetches ++ [consultUrl question category],
        nextId := st.nextId + 1 } := by
  simp [sendQuestion, sendQuestionEffects, runEffects, applyEffect, addMessageToChat]

theorem onSettledChatEq (id : Nat) (result : Except String ResponseBody)
    (st : ClientState) :
    (onSettled id result st).chat =
      removeTypingIfAttached id st.chat ++ [Node.message Sender.ai (settleText result)] := by
  cases result with
  | ok data =>
    by_cases h : jsTruthy data.error
    · simp [onSettled, settleText, addMessageToChat, h]
    · simp [onSettled, settleText, addMessageToChat, h]
  | error e => simp [onSettled, settleText, addMessageToChat]

theorem onSettledFetchesEq (id : Nat) (result : Except String ResponseBody)
    (st : ClientState) :
    (onSettled id result st).fetches = st.fetches := by
  cases result with
  | ok data =>
    by_cases h : jsTruthy data.error
    · simp [onSettled, addMessageToChat, h]
    · simp [onSettled, addMessageToChat, h]
  | error e => simp [onSettled, addMessageToChat]

theorem removeTypingNotMem (id : Nat) (chat : List Node)
    (h : Node.typing id ∉ chat) :
    removeTypingIfAttached id chat = chat := by
  unfold removeTypingIfAttached
  exact if_neg h

/-- Claim C3: for every input whose text is empty or whitespace-only after
trimming, submitting (send control or Enter key both invoke sendMessage)
appends zero messages to the transcript, issues zero network calls, and
leaves the session state entirely unchanged. -/
theorem claim_C3 (st : ClientState) (h : jsTrim st.inputValue = "") :
    sendMessage st = st ∧
    (sendMessage st).chat = st.chat ∧
    (sendMessage st).fetches = st.fetches := by
  have he : sendMessage st = st := by simp [sendMessage, h]
  exact ⟨he, by rw [he], by rw [he]⟩

/-- Witness for claim C3 at the concrete whitespace-only input.  -/
theorem claim_C3_witness :
    jsTrim "   " = "" ∧
    sendMessage { inputValue := "   ", chat := [], fetches := [], nextId := 0 } =
      { inputValue := "   ", chat := [], fetches := [], nextId := 0 } :=
  ⟨by decide,
    (claim_C3 { inputValue := "   ", chat := [], fetches := [], nextId := 0 }
      (by decide)).1⟩

/-- Claim C4: for every non-empty trimmed question, submitting runs the
effect trace of sendQuestion; before the fetch effect (after the first
three effects) the input field is cleared, exactly one user message with
the question text and exactly one placeholder have been appended, and no
network call has been recorded; the full run then issues exactly one
fetch. -/
theorem claim_C4 (st : ClientState) (h : jsTrim st.inputValue ≠ "") :
    sendMessage st =
      runEffects st (sendQuestionEffects (jsTrim st.inputValue) "general" st) ∧
    (runEffects st
        ((sendQuestionEffects (jsTrim st.inputValue) "general" st).take 3)).fetches
      = st.fetches ∧
    (runEffects st
        ((sendQuestionEffects (jsTrim st.inputValue) "general" st).take 3)).inputValue
      = "" ∧
    (runEffects st
        ((sendQuestionEffects (jsTrim st.inputValue) "general" st).take 3)).chat
      = st.chat ++ [Node.message Sender.user (jsTrim st.inputValue),
                    Node.typing st.nextId] ∧
    (sendMessage st).fetches
      = st.fetches ++ [consultUrl (jsTrim st.inputValue) "general"] ∧
    (sendMessage st).chat
      = st.chat ++ [Node.message Sender.user (jsTrim st.inputValue),
                    Node.typing st.nextId] := by
  refine ⟨?_, ?_, ?_, ?_, ?_, ?_⟩ <;>
    simp [sendMessage, h, sendQuestion, runEffects, sendQuestionEffects,
      applyEffect, addMessageToChat]

/-- Witness for claim C4 at a concrete padded input. -/
theorem claim_C4_witness :
    jsTrim " hello " ≠ "" ∧
    (sendMessage { inputValue := " hello ", chat := [], fetches := [], nextId := 0 }).chat
      = [] ++ [Node.message Sender.user (jsTrim " hello "), Node.typing 0] :=
  ⟨by decide,
    (claim_C4 { inputValue := " hello ", chat := [], fetches := [], nextId := 0 }
      (by decide)).2.2.2.2.2⟩

/-- Claim C6: for every transport failure (rejected fetch or JSON parse
failure), the continuation removes the placeholder if attached and appends
exactly one assistant message whose text is "Network error: " followed by
the failure description; the catch handler is a total function of the
state, so no failure escapes to the surrounding environment, and no other
component of the state changes. -/
theorem claim_C6 (id : Nat) (description : String) (st : ClientState) :
    (onSettled id (Except.error description) st).chat =
      removeTypingIfAttached id st.chat ++
        [Node.message Sender.ai ("Network error: " ++ description)] ∧
    (onSettled id (Except.error description) st).fetches = st.fetches ∧
    (onSettled id (Except.error description) st).inputValue = st.inputValue := by
  refine ⟨?_, ?_, ?_⟩ <;> simp [onSettled, addMessageToChat]

/-- Claim C7: placeholder removal on settlement is idempotent: when the
placeholder is already detached, the guarded removal is a no-op (the
unguarded DOM removal would throw NotFoundError, the guard prevents it),
and either settlement continuation still completes by appending exactly
its one assistant message. -/
theorem claim_C7 (id : Nat) (st : ClientState)
    (result : Except String ResponseBody) (h : Node.typing id ∉ st.chat) :
    removeTypingIfAttached id st.chat = st.chat ∧
    removeChildOrThrow (Node.typing id) st.chat = Except.error "NotFoundError" ∧
    (onSettled id result st).chat =
      st.chat ++ [Node.message Sender.ai (settleText result)] := by
  refine ⟨removeTypingNotMem id st.chat h, ?_, ?_⟩
  · unfold removeChildOrThrow
    exact if_neg h
  · rw [onSettledChatEq, removeTypingNotMem id st.chat h]

/-- Witness for claim C7: settlement against a chat from which the
placeholder is already gone. -/
theorem claim_C7_witness :
    (Node.typing 7 ∉ [Node.message Sender.user "hi"]) ∧
    removeTypingIfAttached 7 [Node.message Sender.user "hi"]
      = [Node.message Sender.user "hi"] ∧
    removeChildOrThrow (Node.typing 7) [Node.message Sender.user "hi"]
      = Except.error "NotFoundError" ∧
    (onSettled 7 (Except.error "boom")
        { inputValue := "", chat := [Node.message Sender.user "hi"],
          fetches := [], nextId := 0 }).chat
      = [Node.message Sender.user "hi"] ++
          [Node.message Sender.ai (settleText (Except.error "boom"))] :=
  ⟨by decide,
    claim_C7 7
      { inputValue := "", chat := [Node.message Sender.user "hi"],
        fetches := [], nextId := 0 }
      (Except.error "boom") (by decide)⟩

/-- Claim C10: the non-empty-after-trimming validation exists only on the
text-field path: a tool-button click invokes the request cycle
unconditionally with the label text verbatim (untrimmed), so even an
empty or whitespace-only label still appends a user message and issues a
network request. -/
theorem claim_C10 (label category : String) (st : ClientState) :
    (clickTool label category st).chat =
      st.chat ++ [Node.message Sender.user label, Node.typing st.nextId] ∧
    (clickTool label category st).fetches =
      st.fetches ++ [consultUrl label category] ∧
    (clickTool "   " category st).chat =
      st.chat ++ [Node.message Sender.user "   ", Node.typing st.nextId] ∧
    (clickTool "   " category st).fetches =
      st.fetches ++ [consultUrl "   " category] := by
  refine ⟨?_, ?_, ?_, ?_⟩ <;> simp [clickTool, sendQuestionEq]

/-- Claim C1 counterexample: a settled body whose error field is present
(the empty string) takes the success branch, so the branch is not decided
by presence of the error field.  The error branch would have appended the
assistant message "Error: " (the prefix followed by the empty error);
instead the answer is appended. -/
theorem claim_C1_counterexample :
    (ResponseBody.mk (some "x") (some "")).error.isSome = true ∧
    (onSettled 0 (Except.ok (ResponseBody.mk (some "x") (some "")))
        { inputValue := "", chat := [Node.typing 0], fetches := [], nextId := 1 }).chat
      = [Node.message Sender.ai "x"] ∧
    (onSettled 0 (Except.ok (ResponseBody.mk (some "x") (some "")))
        { inputValue := "", chat := [Node.typing 0], fetches := [], nextId := 1 }).chat
      ≠ [Node.message Sender.ai "Error: "] := by
  refine ⟨rfl, by decide, by decide⟩

/-- Claim C1 (amended): the client decides error vs. success by JavaScript
truthiness of the error field, not by its presence: when the error field
is absent or the empty string (falsy), exactly one assistant message equal
to the answer is appended and the placeholder is removed; when the error
field is truthy (present and non-empty), the error branch is taken. -/
theorem claim_C1_amended (id : Nat) (body : ResponseBody) (st : ClientState) :
    (jsTruthy body.error = false → ∀ a : String, body.answer = some a →
      (onSettled id (Except.ok body) st).chat =
        removeTypingIfAttached id st.chat ++ [Node.message Sender.ai a]) ∧
    (jsTruthy body.error = true →
      (onSettled id (Except.ok body) st).chat =
        removeTypingIfAttached id st.chat ++
          [Node.message Sender.ai ("Error: " ++ jsString body.error)]) := by
  constructor
  · intro h a ha
    simp [onSettled, addMessageToChat, h, ha, jsString]
  · intro h
    simp [onSettled, addMessageToChat, h]

/-- Witness for claim C1 (amended) at a falsy but present error field. -/
theorem claim_C1_amended_witness :
    jsTruthy (ResponseBody.mk (some "ok") (some "")).error = false ∧
    (ResponseBody.mk (some "ok") (some "")).answer = some "ok" ∧
    (onSettled 0 (Except.ok (ResponseBody.mk (some "ok") (some "")))
        { inputValue := "", chat := [Node.typing 0], fetches := [], nextId := 1 }).chat =
      removeTypingIfAttached 0 [Node.typing 0] ++ [Node.message Sender.ai "ok"] :=
  ⟨by decide, rfl,
    (claim_C1_amended 0 (ResponseBody.mk (some "ok") (some ""))
        { inputValue := "", chat := [Node.typing 0], fetches := [], nextId := 1 }).1
      (by decide) "ok" rfl⟩

/-- Claim C2 counterexample: the source URL template interpolates the
category verbatim, so a category containing a space yields a URL different
from the one with the category URL-encoded that the claim specifies. -/
theorem claim_C2_counterexample :
    consultUrl "q" "a b" = "/api/consult?question=q&category=a b" ∧
    consultUrlClaimed "q" "a b" = "/api/consult?question=q&category=a%20b" ∧
    consultUrl "q" "a b" ≠ consultUrlClaimed "q" "a b" := by
  refine ⟨by decide, by decide, by decide⟩

/-- Claim C2 (amended): the issued URL is the consult endpoint with the
question URL-encoded and the category interpolated verbatim; the claimed
shape with both components encoded coincides with it exactly when encoding
leaves the category unchanged (as it does for "general"), and the concrete
cash-flow scenario yields exactly the URL the claim states. -/
theorem claim_C2_amended (question category : String)
    (h : encodeURIComponent category = category) :
    consultUrl question category =
      "/api/consult?question=" ++ encodeURIComponent question ++
        "&category=" ++ category ∧
    consultUrl question category = consultUrlClaimed question category ∧
    consultUrl "How can I improve my cash flow?" "general" =
      "/api/consult?question=How%20can%20I%20improve%20my%20cash%20flow%3F&category=general" := by
  refine ⟨rfl, ?_, by decide⟩
  simp [consultUrl, consultUrlClaimed, h]

/-- Witness for claim C2 (amended) at the cash-flow scenario. -/
theorem claim_C2_amended_witness :
    encodeURIComponent "general" = "general" ∧
    consultUrl "How can I improve my cash flow?" "general" =
      "/api/consult?question=How%20can%20I%20improve%20my%20cash%20flow%3F&category=general" :=
  ⟨by decide,
    (claim_C2_amended "How can I improve my cash flow?" "general" (by decide)).2.2⟩

/-- Claim C5 counterexample: a transport-successful body containing an
error field (the empty string) appends the answer, not the message
"Error: " followed by that error, so the presence of an error field alone
does not produce the prefixed assistant message. -/
theorem claim_C5_counterexample :
    (ResponseBody.mk (some "fallback") (some "")).error.isSome = true ∧
    (onSettled 1 (Except.ok (ResponseBody.mk (some "fallback") (some "")))
        { inputValue := "", chat := [Node.typing 1], fetches := [], nextId := 2 }).chat
      = [Node.message Sender.ai "fallback"] ∧
    (onSettled 1 (Except.ok (ResponseBody.mk (some "fallback") (some "")))
        { inputValue := "", chat := [Node.typing 1], fetches := [], nextId := 2 }).chat
      ≠ [Node.message Sender.ai "Error: "] := by
  refine ⟨rfl, by decide, by decide⟩

/-- Claim C5 (amended): for every transport-successful response whose
error field is present and non-empty (truthy), exactly one assistant
message whose text is "Error: " followed by the error string is appended;
in particular the rate-limited scenario appends exactly
"Error: rate limited". -/
theorem claim_C5_amended (id : Nat) (st : ClientState) (e : String)
    (body : ResponseBody) (he : body.error = some e) (hne : e ≠ "") :
    (onSettled id (Except.ok body) st).chat =
      removeTypingIfAttached id st.chat ++
        [Node.message Sender.ai ("Error: " ++ e)] := by
  simp [onSettled, addMessageToChat, he, jsTruthy, jsString, hne]

/-- Witness for claim C5 (amended) at the rate-limited scenario. -/
theorem claim_C5_amended_witness :
    (ResponseBody.mk none (some "rate limited")).error = some "rate limited" ∧
    ("rate limited" ≠ "") ∧
    (onSettled 0 (Except.ok (ResponseBody.mk none (some "rate limited")))
        { inputValue := "", chat := [Node.typing 0], fetches := [], nextId := 1 }).chat =
      removeTypingIfAttached 0 [Node.typing 0] ++
        [Node.message Sender.ai "Error: rate limited"] :=
  ⟨rfl, by decide,
    claim_C5_amended 0
      { inputValue := "", chat := [Node.typing 0], fetches := [], nextId := 1 }
      "rate limited" (ResponseBody.mk none (some "rate limited")) rfl (by decide)⟩

/-- Claim C8: the transcript is append-only across every observable
transition of the client: after any step, the new transcript equals the
old transcript with some (possibly empty) list of new messages appended,
so previously rendered messages are never mutated, never deleted, and
keep their display order, and each settlement appends in the order in
which settlements run. -/
theorem claim_C8 (s s2 : ClientState) (h : Step s s2) :
    ∃ tail : List (Sender × String),
      messagesOf s2.chat = messagesOf s.chat ++ tail := by
  cases h with
  | submit =>
    by_cases hq : jsTrim s.inputValue = ""
    · exact ⟨[], by simp [sendMessage, hq]⟩
    · exact ⟨[(Sender.user, jsTrim s.inputValue)], by
        simp [sendMessage, hq, sendQuestionEq, messagesOfAppend, messagesOf,
          messageData, List.filterMap_cons]⟩
  | shortcut label category =>
    exact ⟨[(Sender.user, label)], by
      simp [clickTool, sendQuestionEq, messagesOfAppend, messagesOf,
        messageData, List.filterMap_cons]⟩
  | settle id result =>
    exact ⟨[(Sender.ai, settleText result)], by
      rw [onSettledChatEq, messagesOfAppend, messagesOfRemoveTyping]
      simp [messagesOf, messageData, List.filterMap_cons]⟩

/-- Witness for claim C8 at a concrete submission step. -/
theorem claim_C8_witness :
    ∃ tail : List (Sender × String),
      messagesOf (sendMessage
          { inputValue := "hi", chat := [], fetches := [], nextId := 0 }).chat =
        messagesOf
          ({ inputValue := "hi", chat := [], fetches := [], nextId := 0 } :
            ClientState).chat ++ tail :=
  claim_C8 _ _
    (Step.submit { inputValue := "hi", chat := [], fetches := [], nextId := 0 })

/-- Claim C9: the only transformation rendering applies to a message body
is replacing each newline with a visual line break: formatMessage
distributes over concatenation, maps the newline character to "<br>", and
leaves every other character unchanged — so no escaping, sanitization, or
markdown handling occurs on any non-newline character. -/
theorem claim_C9 (s t : String) (c : Char) (h : c ≠ Char.ofNat 10) :
    formatMessage (s ++ t) = formatMessage s ++ formatMessage t ∧
    formatMessage (String.singleton (Char.ofNat 10)) = "<br>" ∧
    formatMessage (String.singleton c) = String.singleton c := by
  refine ⟨?_, by decide, ?_⟩
  · unfold formatMessage
    rw [stringToListAppend, replaceNewlinesAppend, ← stringMkAppend]
  · rw [stringSingletonEq]
    unfold formatMessage
    simp [replaceNewlines, h]

/-- Witness for claim C9 at the markup character that escaping would have
rewritten. -/
theorem claim_C9_witness :
    (Char.ofNat 60 ≠ Char.ofNat 10) ∧
    (formatMessage ("a" ++ "b") = formatMessage "a" ++ formatMessage "b" ∧
     formatMessage (String.singleton (Char.ofNat 10)) = "<br>" ∧
     formatMessage (String.singleton (Char.ofNat 60)) =
       String.singleton (Char.ofNat 60)) :=
  ⟨by decide, claim_C9 "a" "b" (Char.ofNat 60) (by decide)⟩

end SethryClient
